import Mathlib

/-
Verification development for the googletrans client
(src/googletrans/client.py).

The Python module is shallowly embedded below:
  * JSON values (results of Python `json.loads`) become the inductive
    type `JValue`; Python indexing, `len`, truthiness and `==` become
    `pyGet`, `pyLen`, `JValue.truthy` and `JValue.beq`.
  * The bracket-aware RPC response scanner of
    `Translator.translate_to_detect` becomes `respScan` and friends.
  * `json.dumps(..., separators=(',', ':'))` becomes `jdump`;
    `json.loads` becomes `jparse`.
  * The pure decision logic of the client methods becomes explicit
    functions returning `Except`/`Option` where Python raises.
-/

namespace GoogleTrans

/-- JSON values as returned by Python's `json.loads`.  JSON numbers are
modelled as integers: no claim of this development depends on fractional
number literals. -/
inductive JValue where
  | null
  | bool (b : Bool)
  | num (n : Int)
  | str (s : String)
  | arr (elems : List JValue)
  | obj (fields : List (String × JValue))

mutual

/-- Python `==` on JSON-decoded values (structural equality; the Python
corner case `True == 1` is irrelevant here because every comparison in the
client compares against a string). -/
def JValue.beq : JValue → JValue → Bool
  | JValue.null, JValue.null => true
  | JValue.bool a, JValue.bool b => a == b
  | JValue.num a, JValue.num b => a == b
  | JValue.str a, JValue.str b => a == b
  | JValue.arr a, JValue.arr b => JValue.beqList a b
  | JValue.obj a, JValue.obj b => JValue.beqFields a b
  | _, _ => false

/-- Elementwise equality of JSON arrays. -/
def JValue.beqList : List JValue → List JValue → Bool
  | [], [] => true
  | x :: xs, y :: ys => JValue.beq x y && JValue.beqList xs ys
  | _, _ => false

/-- Fieldwise equality of JSON objects. -/
def JValue.beqFields : List (String × JValue) → List (String × JValue) → Bool
  | [], [] => true
  | (k1, v1) :: xs, (k2, v2) :: ys =>
      k1 == k2 && JValue.beq v1 v2 && JValue.beqFields xs ys
  | _, _ => false

end

/-- Python truthiness (`bool(v)`) of a JSON-decoded value. -/
def JValue.truthy : JValue → Bool
  | JValue.null => false
  | JValue.bool b => b
  | JValue.num n => n != 0
  | JValue.str s => !s.isEmpty
  | JValue.arr xs => !xs.isEmpty
  | JValue.obj kvs => !kvs.isEmpty

/-- Python sequence indexing `xs[i]` with negative-index support;
`none` models the `IndexError`. -/
def listPyGet {α : Type} (xs : List α) (i : Int) : Option α :=
  if 0 ≤ i then xs[i.toNat]?
  else
    let j := (-i).toNat
    if j ≤ xs.length then xs[xs.length - j]? else none

/-- Python `v[i]` for an integer index on a JSON-decoded value: arrays
index into their elements, strings into one-character strings; every
other value raises (`none` — `TypeError`, or `KeyError` for objects,
whose JSON keys are strings). -/
def pyGet : JValue → Int → Option JValue
  | JValue.arr xs, i => listPyGet xs i
  | JValue.str s, i => (listPyGet s.toList i).map (fun c => JValue.str (String.singleton c))
  | _, _ => none

/-- Python `len(v)`; `none` models the `TypeError` on unsized values. -/
def pyLen : JValue → Option Nat
  | JValue.arr xs => some xs.length
  | JValue.str s => some s.length
  | JValue.obj kvs => some kvs.length
  | _ => none

/-! ## The RPC response scanner (`Translator.translate_to_detect`, lines 435-455)

The Python loop:
```
token_found = False
square_bracket_counts = [0, 0]
resp = ''
for line in data.split('\n'):
    token_found = token_found or f'"RPC_ID"' in line[:30]
    if not token_found:
        continue
    is_in_string = False
    for index, char in enumerate(line):
        if char == '"' and line[max(0, index - 1)] != '\\':
            is_in_string = not is_in_string
        if not is_in_string:
            if char == '[':
                square_bracket_counts[0] += 1
            elif char == ']':
                square_bracket_counts[1] += 1
    resp += line
    if square_bracket_counts[0] == square_bracket_counts[1]:
        break
```
-/

/-- The fixed RPC id constant (`RPC_ID = 'MkEWBc'`). -/
def RPC_ID : String := "MkEWBc"

/-- `listIsPrefix n h` decides whether `n` is an initial segment of `h`. -/
def listIsPrefix : List Char → List Char → Bool
  | [], _ => true
  | _ :: _, [] => false
  | a :: as, b :: bs => a == b && listIsPrefix as bs

/-- Python substring containment `needle in hay` on character lists. -/
def listContainsSub (needle : List Char) : List Char → Bool
  | [] => needle.isEmpty
  | c :: rest => listIsPrefix needle (c :: rest) || listContainsSub needle rest

/-- `f'"RPC_ID"' in line[:30]`: does the quoted RPC id occur in the first
30 characters of the line? -/
def containsRpcId (line : String) : Bool :=
  listContainsSub ("\"" ++ RPC_ID ++ "\"").toList (line.toList.take 30)

/-- The inner character loop of the scanner.  `prev` is the previous
character (Python's `line[max(0, index - 1)]`: for the first character it
is the character itself), `inStr` the string-literal state, and
`opens`/`closes` the running unmatched-bracket counts.  A `"` toggles the
string state unless the previous character is a backslash; `[`/`]` are
counted only when the (updated) state is outside a string. -/
def scanChars : Char → List Char → Bool → Nat → Nat → Nat × Nat
  | _, [], _, opens, closes => (opens, closes)
  | prev, c :: rest, inStr, opens, closes =>
    let inStr2 := if c == '"' && prev != '\\' then !inStr else inStr
    if !inStr2 then
      if c == '[' then scanChars c rest inStr2 (opens + 1) closes
      else if c == ']' then scanChars c rest inStr2 opens (closes + 1)
      else scanChars c rest inStr2 opens closes
    else scanChars c rest inStr2 opens closes

/-- One line's worth of bracket counting: the string state starts at
`false` for every line, and the "previous" character of the first
character is that character itself (`line[max(0, 0 - 1)] = line[0]`). -/
def scanLine (line : String) (opens closes : Nat) : Nat × Nat :=
  match line.toList with
  | [] => (opens, closes)
  | c :: rest => scanChars c (c :: rest) false opens closes

/-- The line loop of the scanner: skip lines until one whose first 30
characters contain the quoted RPC id, then accumulate lines into `resp`,
stopping as soon as the running `[` count equals the running `]` count. -/
def scanLinesGo : List String → Bool → Nat → Nat → String → String
  | [], _, _, _, resp => resp
  | line :: rest, tokenFound, opens, closes, resp =>
    let found := tokenFound || containsRpcId line
    if !found then scanLinesGo rest found opens closes resp
    else
      let p := scanLine line opens closes
      let resp2 := resp ++ line
      if p.1 == p.2 then resp2
      else scanLinesGo rest found p.1 p.2 resp2

/-- Scanner on an already-split list of lines. -/
def respScanLines (lines : List String) : String :=
  scanLinesGo lines false 0 0 ""

/-- Python `data.split('\n')` on character lists: split on every
newline, keeping empty pieces (`''.split('\n') == ['']`). -/
def splitChars : List Char → List Char → List String
  | [], acc => [String.mk acc.reverse]
  | c :: rest, acc =>
    if c == '\n' then String.mk acc.reverse :: splitChars rest []
    else splitChars rest (c :: acc)

/-- `data.split('\n')`. -/
def splitLines (s : String) : List String :=
  splitChars s.toList []

/-- The full scanner: `data.split('\n')` then the line loop. -/
def respScan (body : String) : String :=
  respScanLines (splitLines body)

/-! ## `json.loads` and `json.dumps`

The client calls Python's `json` module (an external collaborator):
`json.loads` on the scanner's fragment and on the embedded payload
string, and `json.dumps(..., separators=(',', ':'))` in
`_build_rpc_request`.  Both are modelled below.  The parser is lax on
inputs Python would reject (stray control characters, leading zeros,
lone surrogates) and rejects fractional/exponent number literals; no
claim depends on those corners. -/

/-- JSON insignificant whitespace. -/
def isJsonWs (c : Char) : Bool :=
  c == ' ' || c == '\t' || c == '\n' || c == '\r'

/-- Drop leading JSON whitespace. -/
def skipWs : List Char → List Char
  | [] => []
  | c :: rest => if isJsonWs c then skipWs rest else c :: rest

/-- Value of a hexadecimal digit. -/
def hexVal (c : Char) : Option Nat :=
  if '0' ≤ c ∧ c ≤ '9' then some (c.toNat - 48)
  else if 'a' ≤ c ∧ c ≤ 'f' then some (c.toNat - 97 + 10)
  else if 'A' ≤ c ∧ c ≤ 'F' then some (c.toNat - 65 + 10)
  else none

/-- Numeric value of a digit string. -/
def digitsVal (ds : List Char) : Nat :=
  ds.foldl (fun acc c => acc * 10 + (c.toNat - 48)) 0

/-- Parse the body of a JSON string literal (the opening quote already
consumed), handling the escape sequences of RFC 8259. -/
def parseStringBody : List Char → Option (String × List Char)
  | [] => none
  | '"' :: rest => some ("", rest)
  | '\\' :: 'u' :: h1 :: h2 :: h3 :: h4 :: rest =>
    (match hexVal h1, hexVal h2, hexVal h3, hexVal h4 with
     | some a, some b, some c, some d =>
       (parseStringBody rest).map
         (fun p => (String.singleton (Char.ofNat (((a * 16 + b) * 16 + c) * 16 + d)) ++ p.1, p.2))
     | _, _, _, _ => none)
  | '\\' :: e :: rest =>
    (match
       (if e == '"' then some '"' else if e == '\\' then some '\\'
        else if e == '/' then some '/' else if e == 'b' then some (Char.ofNat 8)
        else if e == 'f' then some (Char.ofNat 12) else if e == 'n' then some '\n'
        else if e == 'r' then some '\r' else if e == 't' then some '\t'
        else none : Option Char) with
     | some c => (parseStringBody rest).map (fun p => (String.singleton c ++ p.1, p.2))
     | none => none)
  | c :: rest => (parseStringBody rest).map (fun p => (String.singleton c ++ p.1, p.2))

/-- Parse a JSON integer literal. -/
def parseNum : List Char → Option (JValue × List Char)
  | '-' :: rest =>
    let ds := rest.takeWhile Char.isDigit
    if ds.isEmpty then none
    else some (JValue.num (-(digitsVal ds : Int)), rest.drop ds.length)
  | cs =>
    let ds := cs.takeWhile Char.isDigit
    if ds.isEmpty then none
    else some (JValue.num (digitsVal ds), cs.drop ds.length)

mutual

/-- Fuel-indexed recursive-descent JSON value parser. -/
def parseVal : Nat → List Char → Option (JValue × List Char)
  | 0, _ => none
  | f + 1, cs =>
    match skipWs cs with
    | [] => none
    | c :: rest =>
      if c == 'n' then
        if listIsPrefix ['u', 'l', 'l'] rest then some (JValue.null, rest.drop 3) else none
      else if c == 't' then
        if listIsPrefix ['r', 'u', 'e'] rest then some (JValue.bool true, rest.drop 3) else none
      else if c == 'f' then
        if listIsPrefix ['a', 'l', 's', 'e'] rest then some (JValue.bool false, rest.drop 4) else none
      else if c == '"' then
        (parseStringBody rest).map (fun p => (JValue.str p.1, p.2))
      else if c == '[' then
        (match skipWs rest with
         | ']' :: r2 => some (JValue.arr [], r2)
         | cs2 => parseArrTail f cs2 [])
      else if c == Char.ofNat 123 then
        (match skipWs rest with
         | c2 :: r2 => if c2 == Char.ofNat 125 then some (JValue.obj [], r2)
                       else parseObjTail f (c2 :: r2) []
         | [] => none)
      else if c == '-' || c.isDigit then parseNum (c :: rest)
      else none

/-- Parse the elements of a non-empty JSON array, accumulating into `acc`. -/
def parseArrTail : Nat → List Char → List JValue → Option (JValue × List Char)
  | 0, _, _ => none
  | f + 1, cs, acc =>
    match parseVal f cs with
    | none => none
    | some (v, rest) =>
      match skipWs rest with
      | ',' :: r2 => parseArrTail f r2 (acc ++ [v])
      | ']' :: r2 => some (JValue.arr (acc ++ [v]), r2)
      | _ => none

/-- Parse the members of a non-empty JSON object, accumulating into `acc`. -/
def parseObjTail : Nat → List Char → List (String × JValue) → Option (JValue × List Char)
  | 0, _, _ => none
  | f + 1, cs, acc =>
    match skipWs cs with
    | '"' :: r1 =>
      (match parseStringBody r1 with
       | none => none
       | some (k, r2) =>
         match skipWs r2 with
         | ':' :: r3 =>
           (match parseVal f r3 with
            | none => none
            | some (v, r4) =>
              match skipWs r4 with
              | ',' :: r5 => parseObjTail f r5 (acc ++ [(k, v)])
              | c :: r5 => if c == Char.ofNat 125 then some (JValue.obj (acc ++ [(k, v)]), r5)
                           else none
              | [] => none)
         | _ => none)
    | _ => none

end

/-- `json.loads`: parse a complete JSON document; `none` models the
raised `JSONDecodeError` (in particular `json.loads('')` raises). -/
def jparse (s : String) : Option JValue :=
  match parseVal (2 * s.length + 2) s.toList with
  | some (v, rest) => if (skipWs rest).isEmpty then some v else none
  | none => none

/-- One lowercase hexadecimal digit. -/
def hexDigit (n : Nat) : Char :=
  if n < 10 then Char.ofNat (48 + n) else Char.ofNat (97 + n - 10)

/-- A `\uXXXX` escape for a 16-bit code unit. -/
def escU (n : Nat) : String :=
  "\\u" ++ String.mk [hexDigit (n / 4096 % 16), hexDigit (n / 256 % 16),
                      hexDigit (n / 16 % 16), hexDigit (n % 16)]

/-- Escape one character the way CPython's
`json.encoder.py_encode_basestring_ascii` does (`ensure_ascii=True`,
the `json.dumps` default): the short escapes, `\uXXXX` for other
characters below `0x20` or above `0x7e`, and surrogate pairs for
astral characters. -/
def escapeChar (c : Char) : String :=
  if c == '"' then "\\\""
  else if c == '\\' then "\\\\"
  else if c == '\n' then "\\n"
  else if c == '\r' then "\\r"
  else if c == '\t' then "\\t"
  else if c == Char.ofNat 8 then "\\b"
  else if c == Char.ofNat 12 then "\\f"
  else if c.toNat < 32 then escU c.toNat
  else if c.toNat < 127 then String.singleton c
  else if c.toNat < 65536 then escU c.toNat
  else
    escU (55296 + (c.toNat - 65536) / 1024) ++ escU (56320 + (c.toNat - 65536) % 1024)

/-- The JSON string-literal encoding of `s`. -/
def jstr (s : String) : String :=
  "\"" ++ String.join (s.toList.map escapeChar) ++ "\""

mutual

/-- `json.dumps(v, separators=(',', ':'))`: compact serialization with no
whitespace. -/
def jdump : JValue → String
  | JValue.null => "null"
  | JValue.bool true => "true"
  | JValue.bool false => "false"
  | JValue.num n => toString n
  | JValue.str s => jstr s
  | JValue.arr xs => "[" ++ jdumpList xs ++ "]"
  | JValue.obj kvs => "\x7b" ++ jdumpFields kvs ++ "\x7d"

/-- Comma-joined serialization of array elements. -/
def jdumpList : List JValue → String
  | [] => ""
  | [x] => jdump x
  | x :: y :: rest => jdump x ++ "," ++ jdumpList (y :: rest)

/-- Comma-joined serialization of object members with `:` separators. -/
def jdumpFields : List (String × JValue) → String
  | [] => ""
  | [(k, v)] => jstr k ++ ":" ++ jdump v
  | (k, v) :: x :: rest => jstr k ++ ":" ++ jdump v ++ "," ++ jdumpFields (x :: rest)

end

/-! ## The RPC request builder (`Translator._build_rpc_request`, lines 175-184)

```
return json.dumps([[
    [
        RPC_ID,
        json.dumps([[text, src, dest, True], [None]], separators=(',', ':')),
        None,
        'generic',
    ],
]], separators=(',', ':'))
```
-/

/-- The inner payload array `[[text, src, dest, True], [None]]`. -/
def rpcInner (text dest src : String) : JValue :=
  JValue.arr [JValue.arr [JValue.str text, JValue.str src, JValue.str dest, JValue.bool true],
              JValue.arr [JValue.null]]

/-- `Translator._build_rpc_request(text, dest, src)`. -/
def build_rpc_request (text dest src : String) : String :=
  jdump (JValue.arr [JValue.arr [JValue.arr [
    JValue.str RPC_ID,
    JValue.str (jdump (rpcInner text dest src)),
    JValue.null,
    JValue.str "generic"]]])

/-! ## Error kinds and shared Python helpers -/

/-- The error kinds raised by the client paths modelled here.
`unexpectedStatus` is the generic `Exception('Unexpected status code …')`,
`rateLimit` is `RateLimitError`, `jsonDecode` a `json.loads` failure,
`malformedPayload` a structural indexing/shape failure, and the two
`invalid…Lang` kinds are the `ValueError`s of language validation. -/
inductive TransError where
  | unexpectedStatus
  | rateLimit
  | jsonDecode
  | malformedPayload
  | invalidSrcLang
  | invalidDestLang
deriving DecidableEq

/-- Python `needle in hay` on strings. -/
def pyContains (needle hay : String) : Bool :=
  listContainsSub needle.toList hay.toList

/-- Chained Python indexing `v[i₁][i₂]…`; `none` if any step raises. -/
def pyGetPath : JValue → List Int → Option JValue
  | v, [] => some v
  | v, i :: rest =>
    match pyGet v i with
    | none => none
    | some w => pyGetPath w rest

/-- Python iteration `for d in v`: lists yield their elements, strings
yield one-character strings, dicts yield their keys; other values raise. -/
def pyIter : JValue → Option (List JValue)
  | JValue.arr xs => some xs
  | JValue.str s => some (s.toList.map (fun c => JValue.str (String.singleton c)))
  | JValue.obj kvs => some (kvs.map (fun p => JValue.str p.1))
  | _ => none

/-! ## Rate-limit detection (`Translator._translate_to_detect`, lines 207-218)

```
status = r.status
text = await r.text()
if status != 200 and self.raise_exception:
    raise Exception('Unexpected status code "..." from ...')
if "Our systems have detected unusual traffic from your computer network." in text:
    raise RateLimitError
return text, r
```
-/

/-- The literal abuse-detection phrase tested against the raw body. -/
def rateLimitPhrase : String :=
  "Our systems have detected unusual traffic from your computer network."

/-- The post-exchange checks of `_translate_to_detect`: first the
status/`raise_exception` check, then the rate-limit phrase check; on
success the raw body is returned for decoding. -/
def checkRpcResponse (status : Nat) (raiseException : Bool) (body : String) :
    Except TransError String :=
  if status != 200 && raiseException then Except.error TransError.unexpectedStatus
  else if pyContains rateLimitPhrase body then Except.error TransError.rateLimit
  else Except.ok body

/-! ## Language validation (`translate` lines 347-363, `translate_to_detect` lines 414-430) -/

/-- The three language tables consumed from `googletrans.constants`
(external collaborators; only their lookup structure matters, so they are
kept abstract): the keys of the code table `LANGUAGES`, the alias table
`SPECIAL_CASES`, and the name table `LANGCODES`. -/
structure LangTables where
  LANGUAGES : List String
  SPECIAL_CASES : List (String × String)
  LANGCODES : List (String × String)

/-- `src.lower().split('_', 1)[0]`: lower-casing followed by truncation at
the first underscore (language codes are ASCII). -/
def normalizeSrc (s : String) : String :=
  String.mk ((s.toList.map Char.toLower).takeWhile (fun c => c != '_'))

/-- The three-tier lookup: exact code, then `SPECIAL_CASES`, then
`LANGCODES`; `none` models the `ValueError`. -/
def resolveLang (t : LangTables) (x : String) : Option String :=
  if t.LANGUAGES.contains x then some x
  else
    match t.SPECIAL_CASES.lookup x with
    | some v => some v
    | none =>
      match t.LANGCODES.lookup x with
      | some v => some v
      | none => none

/-- The validation prologue shared by `translate` and
`translate_to_detect`: normalize `src`, resolve it unless it is
`'auto'`, then resolve `dest` (which is neither lower-cased nor
truncated). -/
def validateLangs (t : LangTables) (src dest : String) :
    Except TransError (String × String) :=
  let src2 := normalizeSrc src
  match (if src2 == "auto" then some src2 else resolveLang t src2) with
  | none => Except.error TransError.invalidSrcLang
  | some s =>
    match resolveLang t dest with
    | none => Except.error TransError.invalidDestLang
    | some d => Except.ok (s, d)

/-! ## Batch dispatch (`translate`, lines 365-370)

```
if isinstance(text, list):
    result = []
    for item in text:
        translated = await self.translate(item, dest=dest, src=src, **kwargs)
        result.append(translated)
    return result
```
The per-item call is abstracted as `f` (it performs network I/O). -/

/-- The sequential batch loop: translate items in input order, appending
each result; the first raised error aborts the loop and propagates. -/
def translateBatch {E R : Type} (f : String → Except E R) : List String → Except E (List R)
  | [] => Except.ok []
  | t :: ts =>
    match f t with
    | Except.error e => Except.error e
    | Except.ok r =>
      match translateBatch f ts with
      | Except.error e => Except.error e
      | Except.ok rs => Except.ok (r :: rs)

/-! ## Result assembly of `translate` (lines 372-411) -/

/-- `EXCLUDES = ('en', 'ca', 'fr')`. -/
def EXCLUDES : List String := ["en", "ca", "fr"]

/-- The index→category table of `Translator._parse_extra_data`. -/
def response_parts_name_mapping : List (Nat × String) :=
  [(0, "translation"), (1, "all-translations"), (2, "original-language"),
   (5, "possible-translations"), (6, "confidence"), (7, "possible-mistakes"),
   (8, "language"), (11, "synonyms"), (12, "definitions"), (13, "examples"),
   (14, "see-also")]

/-- One entry of `_parse_extra_data`:
`data[index] if (index < len(data) and data[index]) else None`.  The
outer `none` models a raised read (only possible on non-sequence
values). -/
def extraEntry (data : JValue) (n idx : Nat) : Option (Option JValue) :=
  if idx < n then
    match pyGet data idx with
    | none => none
    | some v => some (if v.truthy then some v else none)
  else some none

/-- Fold `extraEntry` over the index table, failing if any read raises. -/
def extraEntries (data : JValue) (n : Nat) :
    List (Nat × String) → Option (List (String × Option JValue))
  | [] => some []
  | p :: ps =>
    match extraEntry data n p.1, extraEntries data n ps with
    | some e, some rest => some ((p.2, e) :: rest)
    | _, _ => none

/-- `Translator._parse_extra_data` (lines 246-267); `none` models a
raised exception (`len(data)` or a read failing). -/
def parse_extra_data (data : JValue) : Option (List (String × Option JValue)) :=
  match pyLen data with
  | none => none
  | some n => extraEntries data n response_parts_name_mapping

/-- `''.join([d[0] if d[0] else '' for d in data[0]])` over the already
iterated elements: each element's first item, replaced by `''` when
falsy; a truthy non-string makes `str.join` raise (`none`). -/
def joinParts : List JValue → Option String
  | [] => some ""
  | d :: ds =>
    match pyGet d 0 with
    | none => none
    | some v =>
      match (if v.truthy then (match v with | JValue.str s => some s | _ => none) else some "") with
      | none => none
      | some piece =>
        match joinParts ds with
        | none => none
        | some rest => some (piece ++ rest)

/-- Outcome of the auxiliary `translate_to_detect` call observed by
`translate` (lines 382-388): success carrying `temp_src.src`, a
`RateLimitError`, or any other exception. -/
inductive AuxOutcome where
  | ok (detectedSrc : JValue)
  | rateLimited
  | failed

/-- The fields of the `Translated` model object assembled by `translate`. -/
structure Translated where
  src : JValue
  dest : String
  origin : String
  text : String
  pronunciation : JValue
  extra_data : List (String × Option JValue)

/-- Result assembly of `translate` for a single text (lines 372-411):
join the translated pieces, build `extra_data`, consult the auxiliary
detect call (re-raising `RateLimitError`, swallowing other failures),
then compute the pronunciation with its `None`-fallback and the
`EXCLUDES` replacement. -/
def translateAssemble (data : JValue) (origin src dest : String) (aux : AuxOutcome) :
    Except TransError Translated :=
  match pyGet data 0 with
  | none => Except.error TransError.malformedPayload
  | some row0 =>
    match pyIter row0 with
    | none => Except.error TransError.malformedPayload
    | some elems =>
      match joinParts elems with
      | none => Except.error TransError.malformedPayload
      | some translated =>
        match parse_extra_data data with
        | none => Except.error TransError.malformedPayload
        | some extra =>
          match aux with
          | AuxOutcome.rateLimited => Except.error TransError.rateLimit
          | _ =>
            let srcJ : JValue :=
              match aux with
              | AuxOutcome.ok d => d
              | _ => JValue.str src
            let pron1 : JValue :=
              match pyGetPath data [(0 : Int), 1, -2] with
              | some v => v
              | none => JValue.str origin
            let pron2 : JValue :=
              if JValue.beq pron1 JValue.null then
                match pyGetPath data [(0 : Int), 1, 2] with
                | some v => v
                | none => pron1
              else pron1
            let pronF : JValue :=
              if EXCLUDES.contains dest && JValue.beq pron2 (JValue.str origin) then
                JValue.str translated
              else pron2
            Except.ok { src := srcJ, dest := dest, origin := origin, text := translated,
                        pronunciation := pronF, extra_data := extra }

/-! ## The RPC payload decoder (`translate_to_detect`, lines 457-501) -/

/-- `TranslatedPart(part[0], part[1] if len(part) >= 2 else [])`. -/
structure TranslatedPart where
  text : JValue
  candidates : JValue

/-- Build one `TranslatedPart`; `none` models a raised read. -/
def mkPart (part : JValue) : Option TranslatedPart :=
  match pyGet part 0 with
  | none => none
  | some t =>
    match pyLen part with
    | none => none
    | some n =>
      if n ≥ 2 then (pyGet part 1).map (fun v => { text := t, candidates := v })
      else some { text := t, candidates := JValue.arr [] }

/-- `part.text if part.text is not None else ''` as consumed by
`str.join`: strings pass through, `None` becomes `''`, any other value
makes `join` raise. -/
def partText (p : TranslatedPart) : Option String :=
  match p.text with
  | JValue.str s => some s
  | JValue.null => some ""
  | _ => none

/-- Build all `TranslatedPart`s, failing if any element raises. -/
def mapParts : List JValue → Option (List TranslatedPart)
  | [] => some []
  | v :: vs =>
    match mkPart v, mapParts vs with
    | some p, some ps => some (p :: ps)
    | _, _ => none

/-- Extract every part text, failing if any is neither string nor `None`. -/
def mapTexts : List TranslatedPart → Option (List String)
  | [] => some []
  | p :: ps =>
    match partText p, mapTexts ps with
    | some s, some ss => some (s :: ss)
    | _, _ => none

/-- The fields of the `Translate_to_Detect` model object. -/
structure DetectTranslated where
  src : JValue
  dest : String
  origin : String
  text : String
  pronunciation : JValue
  confidence : Option JValue
  origin_pronunciation : JValue
  parts : List TranslatedPart

/-- Decoding of the doubly-parsed RPC payload (lines 460-501): read the
spacing flag and the translated parts (any structural failure raises),
join the part texts, then resolve the detected source language with the
`parsed[2]` → `parsed[0][2]` fallback when `src == 'auto'`, set
`confidence = None` (line 476), and read the two optional pronunciation
paths with swallowed failures. -/
def decodeRpcParsed (parsed : JValue) (origin src dest : String) :
    Except TransError DetectTranslated :=
  match pyGetPath parsed [1, 0, 0, 3] with
  | none => Except.error TransError.malformedPayload
  | some shouldSpacing =>
    match pyGetPath parsed [1, 0, 0, 5] with
    | none => Except.error TransError.malformedPayload
    | some partsRaw =>
      match pyIter partsRaw with
      | none => Except.error TransError.malformedPayload
      | some partVals =>
        match mapParts partVals with
        | none => Except.error TransError.malformedPayload
        | some parts =>
          match mapTexts parts with
          | none => Except.error TransError.malformedPayload
          | some pieces =>
            let translated := String.intercalate (if shouldSpacing.truthy then " " else "") pieces
            let src0 : JValue := JValue.str src
            let src1 : JValue :=
              if JValue.beq src0 (JValue.str "auto") then
                match pyGet parsed 2 with
                | some v => v
                | none => src0
              else src0
            let src2 : JValue :=
              if JValue.beq src1 (JValue.str "auto") then
                match pyGetPath parsed [0, 2] with
                | some v => v
                | none => src1
              else src1
            let originPron : JValue :=
              match pyGetPath parsed [0, 0] with
              | some v => v
              | none => JValue.null
            let pron : JValue :=
              match pyGetPath parsed [1, 0, 0, 1] with
              | some v => v
              | none => JValue.null
            Except.ok { src := src2, dest := dest, origin := origin, text := translated,
                        pronunciation := pron, confidence := none,
                        origin_pronunciation := originPron, parts := parts }

/-- Lines 457-501 of `translate_to_detect` as one pipeline: scan the raw
body, `json.loads` the fragment, read `data[0][2]` (which must be a
string for the second `json.loads`), parse it, and decode. -/
def translate_to_detect_decode (body : String) (origin src dest : String) :
    Except TransError DetectTranslated :=
  match jparse (respScan body) with
  | none => Except.error TransError.jsonDecode
  | some data =>
    match pyGetPath data [0, 2] with
    | none => Except.error TransError.malformedPayload
    | some inner =>
      match inner with
      | JValue.str s =>
        (match jparse s with
         | none => Except.error TransError.jsonDecode
         | some parsed => decodeRpcParsed parsed origin src dest)
      | _ => Except.error TransError.jsonDecode

/-! ## `detect_legacy` decoding (lines 550-561)

```
src = ''
confidence = 0.0
try:
    if len(data[8][0]) > 1:
        src = data[8][0]
        confidence = data[8][-2]
    else:
        src = ''.join(data[8][0])
        confidence = data[8][-2][0]
except Exception:
    pass
result = Detected(lang=src, confidence=confidence, response=response)
```
-/

/-- Collect the elements as strings, failing on any non-string. -/
def strElems : List JValue → Option (List String)
  | [] => some []
  | JValue.str s :: rest => (strElems rest).map (fun ss => s :: ss)
  | _ => none

/-- `''.join(v)` with Python iteration; every yielded element must be a
string, otherwise `join` raises. -/
def pyJoinStrs (v : JValue) : Option String :=
  match pyIter v with
  | none => none
  | some elems => (strElems elems).map String.join

/-- The `detect_legacy` extraction: assignments happen in order inside the
`try`, the first raised exception is swallowed and the variables keep
whatever they held at that point (`src = ''`, `confidence = 0.0`
initially; `0.0` is modelled as the number `0`).  Returns
`(lang, confidence)` of the resulting `Detected`. -/
def detect_legacy_decode (data : JValue) : JValue × JValue :=
  match pyGet data 8 with
  | none => (JValue.str "", JValue.num 0)
  | some d8 =>
    match pyGet d8 0 with
    | none => (JValue.str "", JValue.num 0)
    | some d80 =>
      match pyLen d80 with
      | none => (JValue.str "", JValue.num 0)
      | some n =>
        if n > 1 then
          match pyGet d8 (-2) with
          | some conf => (d80, conf)
          | none => (d80, JValue.num 0)
        else
          match pyJoinStrs d80 with
          | none => (JValue.str "", JValue.num 0)
          | some s =>
            match pyGet d8 (-2) with
            | none => (JValue.str s, JValue.num 0)
            | some row =>
              match pyGet row 0 with
              | none => (JValue.str s, JValue.num 0)
              | some conf => (JValue.str s, conf)

/-! ## Session teardown (`Translator.close`, lines 149-167, and
`Translator.__del__`, lines 127-147) -/

/-- A transport handle (session or connector) as seen by teardown:
whether its `.closed` attribute is set and whether its close call would
raise. -/
structure Handle where
  closed : Bool
  closeRaises : Bool

/-- The mutable fields of the translator touched by `close`/`__del__`. -/
structure TranslatorState where
  session : Option Handle
  connector : Option Handle

/-- `await h.close()` (or the synchronous `_close()`): `error` models a
raised transport teardown exception. -/
def handleClose (h : Handle) : Except Unit Unit :=
  if h.closeRaises then Except.error () else Except.ok ()

/-- `try: a except Exception: pass`. -/
def tryExceptPass (a : Except Unit Unit) : Except Unit Unit :=
  match a with
  | Except.error _ => Except.ok ()
  | Except.ok _ => Except.ok ()

/-- The guarded-teardown pattern both `close` and `__del__` apply to a
nullable handle field:
`if h is not None and not h.closed: try: h.close() except Exception: pass`. -/
def closeAttempt (o : Option Handle) : Except Unit Unit :=
  match o with
  | some h => if !h.closed then tryExceptPass (handleClose h) else Except.ok ()
  | none => Except.ok ()

/-- `Translator.close` under the writer lock: close the session if
present and not already closed (exceptions swallowed by the inner
`try/except`), `finally` null the session field, then the same for the
connector, `finally` null the connector field.  Returns the new state
and `some ()` iff an exception escapes. -/
def closeTranslator (st : TranslatorState) : TranslatorState × Option Unit :=
  let sessionAttempt := closeAttempt st.session
  let st1 : TranslatorState := { st with session := none }
  let connectorAttempt := closeAttempt st1.connector
  let st2 : TranslatorState := { st1 with connector := none }
  match sessionAttempt, connectorAttempt with
  | Except.ok _, Except.ok _ => (st2, none)
  | _, _ => (st2, some ())

/-- `Translator.__del__`: the synchronous best-effort connector teardown;
each `_close()` is wrapped in an inner `try/except: pass` and the whole
body in an outer `try/except: pass`.  Returns `some ()` iff an
exception escapes. -/
def delTranslator (st : TranslatorState) : Option Unit :=
  let body : Except Unit Unit :=
    match closeAttempt st.session with
    | Except.error e => Except.error e
    | Except.ok _ => closeAttempt st.connector
  match tryExceptPass body with
  | Except.ok _ => none
  | Except.error _ => some ()

/-! ## Composite pipelines and concrete fixtures used by the theorems -/

/-- Whether an `Except` is an error (a raised exception). -/
def isErr {E A : Type} : Except E A → Bool
  | Except.error _ => true
  | Except.ok _ => false

/-- `_translate_to_detect`'s checks followed by `translate_to_detect`'s
decoding: the full RPC response path for one exchange. -/
def fullRpc (status : Nat) (raiseExc : Bool) (body : String)
    (origin src dest : String) : Except TransError DetectTranslated :=
  match checkRpcResponse status raiseExc body with
  | Except.error e => Except.error e
  | Except.ok b => translate_to_detect_decode b origin src dest

/-- A batch-execute response line carrying the expected RPC id whose
third element is a string payload `t`: the quoted id sits within the
first 30 characters, and the brackets outside string literals balance
exactly at the end of the line. -/
def interestingLine (t : String) : String :=
  "[[\"wrb.fr\",\"MkEWBc\",\"" ++ t ++ "\"]]"

/-- Concrete language tables for witnesses. -/
def tablesW : LangTables :=
  { LANGUAGES := ["en", "fr", "ko"],
    SPECIAL_CASES := [("zh-cn", "zh-CN")],
    LANGCODES := [("korean", "ko")] }

/-- A concrete per-item translation oracle: the item `"bad"` fails. -/
def fW : String → Except Nat String :=
  fun t => if t == "bad" then Except.error 0 else Except.ok t

/-- An oracle agreeing with `fW` up to the failing item but differing on
the item after it. -/
def gW : String → Except Nat String :=
  fun t => if t == "tail" then Except.ok "CHANGED" else fW t

/-- A concrete simple-endpoint response payload: one sentence row plus a
pronunciation row. -/
def dataW : JValue :=
  JValue.arr [JValue.arr [
    JValue.arr [JValue.str "Bonjour", JValue.str "Hello"],
    JValue.arr [JValue.null, JValue.str "Hello", JValue.str "zz"]]]

/-- `_parse_extra_data dataW`. -/
def extraW : List (String × Option JValue) :=
  [("translation", some (JValue.arr [
      JValue.arr [JValue.str "Bonjour", JValue.str "Hello"],
      JValue.arr [JValue.null, JValue.str "Hello", JValue.str "zz"]])),
   ("all-translations", none), ("original-language", none),
   ("possible-translations", none), ("confidence", none),
   ("possible-mistakes", none), ("language", none), ("synonyms", none),
   ("definitions", none), ("examples", none), ("see-also", none)]

/-- `translate`'s result on `dataW` when the auxiliary call fails
benignly. -/
def rFW : Translated :=
  { src := JValue.str "auto", dest := "fr", origin := "Hello",
    text := "Bonjour", pronunciation := JValue.str "Bonjour",
    extra_data := extraW }

/-- `translate`'s result on `dataW` when the auxiliary call detects
`"en"`. -/
def rTrW : Translated :=
  { src := JValue.str "en", dest := "fr", origin := "Hello",
    text := "Bonjour", pronunciation := JValue.str "Bonjour",
    extra_data := extraW }

/-- A concrete doubly-parsed RPC payload with neither `parsed[2]` nor
`parsed[0][2]` present. -/
def parsedW : JValue :=
  JValue.arr [JValue.arr [JValue.null],
    JValue.arr [JValue.arr [JValue.arr [
      JValue.null, JValue.null, JValue.null, JValue.bool true, JValue.null,
      JValue.arr [JValue.arr [JValue.str "Hola", JValue.arr []]]]]]]

/-- `translate_to_detect`'s decoded result on `parsedW`. -/
def rDetW : DetectTranslated :=
  { src := JValue.str "auto", dest := "en", origin := "hi", text := "Hola",
    pronunciation := JValue.null, confidence := none,
    origin_pronunciation := JValue.null,
    parts := [{ text := JValue.str "Hola", candidates := JValue.arr [] }] }

/-- Concatenation of lines exactly as the scanner's `resp += line`
accumulates them (no separators). -/
def concatLines : List String → String
  | [] => ""
  | l :: ls => l ++ concatLines ls

/-- The running bracket counts never balance at any line boundary while
scanning `lines` from counts `(o, c)`: the scanner's `break` is never
taken. -/
def neverBalances : List String → Nat → Nat → Bool
  | [], _, _ => true
  | l :: ls, o, c =>
    let p := scanLine l o c
    !(p.1 == p.2) && neverBalances ls p.1 p.2

/-- Whether a doubly-parsed RPC payload has the shape
`translate_to_detect` requires: the spacing flag at `parsed[1][0][0][3]`,
an iterable parts array at `parsed[1][0][0][5]`, each part indexable at
`0` (and at `1` when it has two elements), and every part text a string
or `None`. -/
def hasExpectedShape (parsed : JValue) : Bool :=
  match pyGetPath parsed [1, 0, 0, 3] with
  | none => false
  | some _ =>
    match pyGetPath parsed [1, 0, 0, 5] with
    | none => false
    | some partsRaw =>
      match pyIter partsRaw with
      | none => false
      | some partVals =>
        match mapParts partVals with
        | none => false
        | some parts =>
          match mapTexts parts with
          | none => false
          | some _ => true

end GoogleTrans

namespace GoogleTrans

/-! # Theorems -/

/-! ## Shared helper lemmas -/

/-- Scanning characters inside a string literal neither toggles the
string state nor counts brackets, as long as no quote occurs; the
"previous character" becomes the last character scanned. -/
theorem scanChars_inStr (s : List Char) (hs : ∀ x ∈ s, ¬(x = '"')) (prev : Char)
    (rest : List Char) (o c : Nat) :
    scanChars prev (s ++ rest) true o c = scanChars (s.getLastD prev) rest true o c := by
  induction s generalizing prev with
  | nil => rfl
  | cons a s ih =>
    have ha : (a == '"') = false := by
      simpa using hs a (by simp)
    simp only [List.cons_append, scanChars, ha, Bool.false_and, Bool.not_true,
      List.getLastD_cons, if_false]
    rw [if_neg (by simp)]
    exact ih (fun x hx => hs x (by simp [hx])) a

/-- The defaulted last character of a backslash-free list is not a
backslash when the default is not. -/
theorem getLastD_ne_backslash (s : List Char) (prev : Char)
    (h : ∀ x ∈ s, ¬(x = '\\')) (hp : ¬(prev = '\\')) :
    ¬(s.getLastD prev = '\\') := by
  induction s generalizing prev with
  | nil => exact hp
  | cons a s ih =>
    rw [List.getLastD_cons]
    exact ih a (fun x hx => h x (by simp [hx])) (h a (by simp))

/-- Scanning an `interestingLine` from a clean state yields two opening
and two closing brackets: the brackets inside the embedded string
literal `t` are never counted. -/
theorem scanLine_interesting (t : String)
    (ht : ∀ x ∈ t.toList, ¬(x = '"') ∧ ¬(x = '\\')) :
    scanLine (interestingLine t) 0 0 = (2, 2) := by
  have h1 : scanLine (interestingLine t) 0 0
      = scanChars '"' (t.toList ++ ['"', ']', ']']) true 2 0 := rfl
  rw [h1, scanChars_inStr t.toList (fun x hx => (ht x hx).1) '"' _ 2 0]
  have hnot : ¬(t.toList.getLastD '"' = '\\') :=
    getLastD_ne_backslash t.toList '"' (fun x hx => (ht x hx).2) (by decide)
  rw [List.getLastD_eq_getLast?] at hnot
  have hnot2 : ¬(t.data.getLast?.getD '"' = '\\') := hnot
  simp [scanChars, hnot2]

/-- Lines without the quoted RPC id in their first 30 characters are
discarded: they change neither the counts nor the accumulator. -/
theorem scanLinesGo_skip (lines ls : List String) (o c : Nat) (resp : String)
    (h : ∀ l ∈ lines, containsRpcId l = false) :
    scanLinesGo (lines ++ ls) false o c resp = scanLinesGo ls false o c resp := by
  induction lines with
  | nil => rfl
  | cons l lgs ih =>
    have hl : containsRpcId l = false := h l (by simp)
    simp only [List.cons_append, scanLinesGo, hl, Bool.or_false]
    exact ih (fun x hx => h x (by simp [hx]))

/-- If no line carries the RPC id the scanner returns the (empty)
accumulator unchanged. -/
theorem scanLinesGo_no_token (lines : List String) (o c : Nat) (resp : String)
    (h : ∀ l ∈ lines, containsRpcId l = false) :
    scanLinesGo lines false o c resp = resp := by
  have h2 := scanLinesGo_skip lines [] o c resp h
  simpa using h2

/-- Once the id has been seen, if the running counts never balance at
any line boundary the scanner takes no `break`: it accumulates every
remaining line onto the accumulator. -/
theorem scanLinesGo_exhaust (lines : List String) (o c : Nat) (resp : String)
    (h : neverBalances lines o c = true) :
    scanLinesGo lines true o c resp = resp ++ concatLines lines := by
  induction lines generalizing o c resp with
  | nil =>
    simp [scanLinesGo, concatLines, String.append_empty]
  | cons l ls ih =>
    rcases hq : scanLine l o c with ⟨o1, c1⟩
    rw [neverBalances] at h
    rw [hq] at h
    simp only [Bool.and_eq_true, Bool.not_eq_true'] at h
    simp only [scanLinesGo, Bool.true_or, Bool.not_true, if_false, hq, h.1]
    rw [ih o1 c1 (resp ++ l) h.2, concatLines, ← String.append_assoc]
    simp

/-- The three-tier language lookup: exact code wins, then the
special-case alias table, then the name table; `none` exactly when all
three miss. -/
theorem resolveLang_tiers (t : LangTables) (x : String) :
    (resolveLang t x = none ↔
      (t.LANGUAGES.contains x = false ∧ t.SPECIAL_CASES.lookup x = none
        ∧ t.LANGCODES.lookup x = none))
    ∧ (t.LANGUAGES.contains x = true → resolveLang t x = some x)
    ∧ (∀ v, t.LANGUAGES.contains x = false → t.SPECIAL_CASES.lookup x = some v →
        resolveLang t x = some v)
    ∧ (∀ v, t.LANGUAGES.contains x = false → t.SPECIAL_CASES.lookup x = none →
        t.LANGCODES.lookup x = some v → resolveLang t x = some v) := by
  unfold resolveLang
  rcases h1 : t.LANGUAGES.contains x <;>
    rcases h2 : t.SPECIAL_CASES.lookup x <;>
      rcases h3 : t.LANGCODES.lookup x <;>
        simp [h1, h2, h3]

/-- `tryExceptPass` swallows every exception. -/
theorem tryExceptPass_ok (a : Except Unit Unit) : tryExceptPass a = Except.ok () := by
  cases a <;> rfl

/-- The guarded-teardown pattern never lets an exception escape. -/
theorem closeAttempt_ok (o : Option Handle) : closeAttempt o = Except.ok () := by
  cases o with
  | none => rfl
  | some h => simp [closeAttempt, tryExceptPass_ok, ite_self]

/-! ## C1 -/

/-- C1: the scanner discards every line before the first one whose first
30 characters contain the quoted RPC id, then stops accumulating exactly
when the running `[` count equals the running `]` count — and bracket
characters inside the double-quoted string literal of the payload (the
universally quantified `t`, which may contain arbitrary `[`/`]`) never
affect where the fragment terminates: the scanner returns exactly the
id-carrying line, consuming none of the following lines. -/
theorem scanner_string_literal_awareness (junk : List String) (t : String)
    (rest : List String)
    (hj : junk.all (fun l => !(containsRpcId l)) = true)
    (ht : t.toList.all (fun x => !(x == '"' || x == '\\')) = true) :
    respScanLines (junk ++ interestingLine t :: rest) = interestingLine t := by
  have hj2 : ∀ l ∈ junk, containsRpcId l = false := by
    intro l hl
    simpa using (List.all_eq_true.mp hj) l hl
  have ht2 : ∀ x ∈ t.toList, ¬(x = '"') ∧ ¬(x = '\\') := by
    intro x hx
    have := (List.all_eq_true.mp ht) x hx
    simp at this
    exact ⟨fun e => by simp [e] at this, fun e => by simp [e] at this⟩
  show scanLinesGo (junk ++ interestingLine t :: rest) false 0 0 "" = _
  rw [scanLinesGo_skip junk _ 0 0 "" hj2]
  have hc : containsRpcId (interestingLine t) = true := rfl
  have hsl : scanLine (interestingLine t) 0 0 = (2, 2) := scanLine_interesting t ht2
  simp only [scanLinesGo, hc, Bool.or_true, Bool.not_true, if_false, hsl]
  show (if (2 == 2) = true then "" ++ interestingLine t
        else scanLinesGo rest true 2 2 ("" ++ interestingLine t)) = interestingLine t
  rw [if_pos (by decide)]
  rfl

/-- C1 witness: a payload text full of literal brackets does not derail
the scanner; the junk line before and the line after are untouched. -/
theorem scanner_string_literal_awareness_witness :
    ((["junk line )]"].all (fun l => !(containsRpcId l))) = true)
    ∧ ("Bonjour [le] monde [[[".toList.all (fun x => !(x == '"' || x == '\\')) = true)
    ∧ respScanLines
        (["junk line )]"] ++ interestingLine "Bonjour [le] monde [[[" :: ["tail ]]]"])
        = interestingLine "Bonjour [le] monde [[[" :=
  ⟨by rfl, by rfl,
   scanner_string_literal_awareness ["junk line )]"] "Bonjour [le] monde [[["
     ["tail ]]]"] (by rfl) (by rfl)⟩

/-! ## C2 -/

/-- C2 counterexample: with `raise_exception=True` and a non-200 status,
a body consisting of the abuse-detection phrase fails with the generic
unexpected-status error, not `RateLimitError` — the claim's "regardless
of the HTTP status code" is false. -/
theorem rate_limit_counterexample :
    pyContains rateLimitPhrase rateLimitPhrase = true
    ∧ checkRpcResponse 500 true rateLimitPhrase
        = Except.error TransError.unexpectedStatus := by
  constructor
  · rfl
  · rfl

/-- C2 (amended): when the status is 200 or `raise_exception` is off,
a body containing the abuse-detection phrase makes the full RPC path
fail with the rate-limit kind before any JSON parsing is attempted,
whatever the rest of the body holds. -/
theorem rate_limit_short_circuits (status : Nat) (raiseExc : Bool)
    (body origin src dest : String)
    (hcfg : status = 200 ∨ raiseExc = false)
    (hphrase : pyContains rateLimitPhrase body = true) :
    fullRpc status raiseExc body origin src dest = Except.error TransError.rateLimit := by
  unfold fullRpc checkRpcResponse
  rcases hcfg with h | h <;> simp [h, hphrase]

/-- C2 witness: an unparseable rate-limited body on a 503 with
`raise_exception=False`. -/
theorem rate_limit_short_circuits_witness :
    pyContains rateLimitPhrase (")]\x7d\n123\nOur systems have detected unusual traffic from your computer network. Please try again") = true
    ∧ fullRpc 503 false (")]\x7d\n123\nOur systems have detected unusual traffic from your computer network. Please try again") "hi" "auto" "en"
        = Except.error TransError.rateLimit :=
  ⟨by rfl,
   rate_limit_short_circuits 503 false _ "hi" "auto" "en" (Or.inr rfl) (by rfl)⟩

/-! ## C3 -/

/-- C3 counterexample: `detect_legacy` silently substitutes the default
`Detected(lang='', confidence=0.0)` when the payload lacks the expected
shape (here an empty array), instead of failing with an error. -/
theorem detect_legacy_defaults_on_malformed :
    detect_legacy_decode (JValue.arr []) = (JValue.str "", JValue.num 0) := by
  rfl

/-- C3 (amended): every failure mode of the RPC path errors, never
yielding partial data or a default — (i) extraction failure: when no
line carries the quoted RPC id, the fragment is empty and the decode
fails with a parse error; (ii) parse failure: whenever the reconstructed
fragment does not parse as JSON, the decode fails; (iii) brackets never
balance: the scanner takes no break and the fragment is exactly the
untruncated concatenation of every interesting line (so a malformed
accumulation fails through (ii)); (iv) outer shape failure: `data[0][2]`
unreadable, a non-string there, or an unparseable embedded payload each
fail; (v) inner shape failure: the decoder errs exactly when one of its
required reads fails. -/
theorem rpc_decode_error_modes (body origin src dest : String) :
    ((splitLines body).all (fun l => !(containsRpcId l)) = true →
        respScan body = ""
        ∧ translate_to_detect_decode body origin src dest
            = Except.error TransError.jsonDecode)
    ∧ (jparse (respScan body) = none →
        translate_to_detect_decode body origin src dest
          = Except.error TransError.jsonDecode)
    ∧ (∀ junk L rest, splitLines body = junk ++ L :: rest →
        junk.all (fun l => !(containsRpcId l)) = true →
        containsRpcId L = true →
        neverBalances (L :: rest) 0 0 = true →
        respScan body = concatLines (L :: rest))
    ∧ (∀ data, jparse (respScan body) = some data →
        ((pyGetPath data [0, 2] = none →
            translate_to_detect_decode body origin src dest
              = Except.error TransError.malformedPayload)
         ∧ (∀ v, pyGetPath data [0, 2] = some v → (∀ s, v ≠ JValue.str s) →
             translate_to_detect_decode body origin src dest
               = Except.error TransError.jsonDecode)
         ∧ (∀ s, pyGetPath data [0, 2] = some (JValue.str s) → jparse s = none →
             translate_to_detect_decode body origin src dest
               = Except.error TransError.jsonDecode)))
    ∧ (∀ parsed, isErr (decodeRpcParsed parsed origin src dest)
        = !(hasExpectedShape parsed)) := by
  refine ⟨?_, ?_, ?_, ?_, ?_⟩
  · intro h
    have h2 : ∀ l ∈ splitLines body, containsRpcId l = false := by
      intro l hl
      simpa using (List.all_eq_true.mp h) l hl
    have hscan : respScan body = "" :=
      scanLinesGo_no_token (splitLines body) 0 0 "" h2
    exact ⟨hscan, by simp only [translate_to_detect_decode, hscan]; rfl⟩
  · intro hp
    simp [translate_to_detect_decode, hp]
  · intro junk L rest hsplit hj hL hnb
    have hj2 : ∀ l ∈ junk, containsRpcId l = false := by
      intro l hl
      simpa using (List.all_eq_true.mp hj) l hl
    show respScanLines (splitLines body) = _
    rw [hsplit]
    show scanLinesGo (junk ++ L :: rest) false 0 0 "" = _
    rw [scanLinesGo_skip junk _ 0 0 "" hj2]
    rcases hq : scanLine L 0 0 with ⟨o1, c1⟩
    rw [neverBalances] at hnb
    rw [hq] at hnb
    simp only [Bool.and_eq_true, Bool.not_eq_true'] at hnb
    simp only [scanLinesGo, hL, Bool.or_true, Bool.not_true, if_false, hq, hnb.1]
    rw [scanLinesGo_exhaust rest o1 c1 ("" ++ L) hnb.2]
    simp
    rfl
  · intro data hd
    refine ⟨?_, ?_, ?_⟩
    · intro hp
      simp [translate_to_detect_decode, hd, hp]
    · intro v hv hns
      cases v <;> simp [translate_to_detect_decode, hd, hv]
      exact absurd rfl (hns _)
    · intro s hv hp
      simp [translate_to_detect_decode, hd, hv, hp]
  · intro parsed
    rcases h0 : pyGetPath parsed [1, 0, 0, 3] with _ | sp <;>
      simp [decodeRpcParsed, hasExpectedShape, isErr, h0]
    rcases h1 : pyGetPath parsed [1, 0, 0, 5] with _ | pr <;> simp [h1, isErr]
    rcases h2 : pyIter pr with _ | pv <;> simp [h2, isErr]
    rcases h3 : mapParts pv with _ | parts <;> simp [h3, isErr]
    rcases h4 : mapTexts parts with _ | pieces <;> simp [h4, isErr]

/-- C3 witness: a body whose id-carrying line never balances yields the
full untruncated line as fragment and a parse error; a body with no
id-carrying line fails too; and a shapeless payload makes the inner
decoder err. -/
theorem rpc_decode_error_modes_witness :
    respScan "x\n[[\"MkEWBc\",\"payload\"" = "[[\"MkEWBc\",\"payload\""
    ∧ translate_to_detect_decode "x\n[[\"MkEWBc\",\"payload\"" "hi" "auto" "en"
        = Except.error TransError.jsonDecode
    ∧ translate_to_detect_decode "AF_initDataCallback\n123\n[[\"other\",null]]" "hi" "auto" "en"
        = Except.error TransError.jsonDecode
    ∧ isErr (decodeRpcParsed (JValue.arr []) "hi" "auto" "en") = true :=
  ⟨((rpc_decode_error_modes "x\n[[\"MkEWBc\",\"payload\"" "hi" "auto" "en").2.2.1
      ["x"] "[[\"MkEWBc\",\"payload\"" [] rfl (by rfl) (by rfl) (by rfl)).trans
      (String.append_empty _),
   (rpc_decode_error_modes "x\n[[\"MkEWBc\",\"payload\"" "hi" "auto" "en").2.1 (by rfl),
   ((rpc_decode_error_modes "AF_initDataCallback\n123\n[[\"other\",null]]" "hi" "auto" "en").1
      (by rfl)).2,
   ((rpc_decode_error_modes "x" "hi" "auto" "en").2.2.2.2 (JValue.arr [])).trans rfl⟩

/-! ## C4 -/

/-- C4: the batch loop translates the items sequentially in input order —
a success is exactly an elementwise success preserving length and order,
and when the items before `b` succeed and `b` fails, the whole batch
fails with `b`'s error and the items after `b` are never issued (the
result is unchanged under any oracle `g` that agrees with `f` only up to
and including `b`). -/
theorem translate_batch_contract {E R : Type} (f : String → Except E R) :
    (∀ ts rs, translateBatch f ts = Except.ok rs ↔ ts.map f = rs.map Except.ok)
    ∧ (∀ as, (∀ a ∈ as, ∃ r, f a = Except.ok r) → ∀ b cs e, f b = Except.error e →
        (translateBatch f (as ++ b :: cs) = Except.error e
         ∧ ∀ g : String → Except E R, (∀ a ∈ as, g a = f a) → g b = f b →
             translateBatch g (as ++ b :: cs) = Except.error e)) := by
  constructor
  · intro ts
    induction ts with
    | nil =>
      intro rs
      cases rs <;> simp [translateBatch]
    | cons t ts ih =>
      intro rs
      rcases hf : f t with e | r
      · cases rs <;> simp [translateBatch, hf]
      · cases rs with
        | nil =>
          rcases hb : translateBatch f ts with e2 | rs2 <;>
            simp [translateBatch, hf, hb]
        | cons r2 rs =>
          rcases hb : translateBatch f ts with e2 | rs2 <;>
            simp [translateBatch, hf, hb]
          · intro _ hmap
            have h2 := (ih rs).mpr hmap
            rw [hb] at h2
            exact Except.noConfusion h2
          · intro _
            constructor
            · rintro rfl
              exact (ih rs2).mp hb
            · intro hmap
              have h2 := (ih rs).mpr hmap
              rw [hb] at h2
              exact (Except.ok.injEq _ _).mp h2
  · intro as
    induction as with
    | nil =>
      intro _ b cs e hfb
      refine ⟨by simp [translateBatch, hfb], ?_⟩
      intro g _ hgb
      simp [translateBatch, hgb, hfb]
    | cons a as ih =>
      intro hok b cs e hfb
      obtain ⟨r, hr⟩ := hok a (by simp)
      obtain ⟨ih1, ih2⟩ := ih (fun x hx => hok x (by simp [hx])) b cs e hfb
      refine ⟨by simp [translateBatch, hr, ih1], ?_⟩
      intro g hga hgb
      have hga2 : g a = f a := hga a (by simp)
      have hrec := ih2 g (fun x hx => hga x (by simp [hx])) hgb
      simp [translateBatch, hga2, hr, hrec]

/-- C4 witness: `["a", "bad", "tail"]` fails at `"bad"`, and changing the
oracle's behaviour on `"tail"` (the item after the failure) cannot be
observed. -/
theorem translate_batch_contract_witness :
    translateBatch fW ["a", "bad", "tail"] = Except.error 0
    ∧ translateBatch gW ["a", "bad", "tail"] = Except.error 0 := by
  have h := (translate_batch_contract fW).2 ["a"]
    (by
      intro a ha
      rw [List.mem_singleton] at ha
      subst ha
      exact ⟨"a", rfl⟩) "bad" ["tail"] 0 rfl
  refine ⟨h.1, h.2 gW ?_ rfl⟩
  intro a ha
  rw [List.mem_singleton] at ha
  subst ha
  rfl

/-! ## C5 -/

/-- C5: `src` is lower-cased and truncated at the first underscore
before validation; the call errors exactly when the normalized `src`
(unless `'auto'`) or `dest` misses all three lookup tiers; and the
three-tier lookup resolves through the exact code table, then
`SPECIAL_CASES`, then `LANGCODES`, in that order. -/
theorem language_validation_three_tier (t : LangTables) (src dest : String) :
    (isErr (validateLangs t src dest) = true ↔
      ((normalizeSrc src ≠ "auto"
         ∧ t.LANGUAGES.contains (normalizeSrc src) = false
         ∧ t.SPECIAL_CASES.lookup (normalizeSrc src) = none
         ∧ t.LANGCODES.lookup (normalizeSrc src) = none)
       ∨ (t.LANGUAGES.contains dest = false
           ∧ t.SPECIAL_CASES.lookup dest = none
           ∧ t.LANGCODES.lookup dest = none)))
    ∧ (∀ x, (t.LANGUAGES.contains x = true → resolveLang t x = some x)
        ∧ (∀ v, t.LANGUAGES.contains x = false → t.SPECIAL_CASES.lookup x = some v →
            resolveLang t x = some v)
        ∧ (∀ v, t.LANGUAGES.contains x = false → t.SPECIAL_CASES.lookup x = none →
            t.LANGCODES.lookup x = some v → resolveLang t x = some v)) := by
  constructor
  · have hs := (resolveLang_tiers t (normalizeSrc src)).1
    have hd := (resolveLang_tiers t dest).1
    rw [← hs, ← hd]
    unfold validateLangs
    rcases hauto : (normalizeSrc src == "auto") <;>
      rcases h1 : resolveLang t (normalizeSrc src) <;>
        rcases h2 : resolveLang t dest <;>
          simp_all [isErr]
  · intro x
    exact ⟨(resolveLang_tiers t x).2.1, (resolveLang_tiers t x).2.2.1,
      (resolveLang_tiers t x).2.2.2⟩

/-- C5 witness: `"XX_yy"` normalizes to `"xx"` and misses every tier, so
validation errors; `"korean"` resolves through the third tier. -/
theorem language_validation_witness :
    isErr (validateLangs tablesW "XX_yy" "fr") = true
    ∧ resolveLang tablesW "korean" = some "ko" :=
  ⟨(language_validation_three_tier tablesW "XX_yy" "fr").1.mpr
      (Or.inl ⟨by decide, rfl, rfl, rfl⟩),
   ((language_validation_three_tier tablesW "XX_yy" "fr").2 "korean").2.2 "ko" rfl rfl rfl⟩

/-! ## C6 -/

/-- C6: the RPC request builder emits exactly
`[[["MkEWBc", <json-of-inner-array-as-a-string>, null, "generic"]]]`
with compact separators — the inner array `[[text, src, dest, true],
[null]]` is JSON-encoded and then embedded as a string literal
(double-encoded, not flattened); a fully concrete instance is included. -/
theorem rpc_request_shape (text src dest : String) :
    (build_rpc_request text dest src =
      "[[[\"MkEWBc\"," ++ jstr (jdump (rpcInner text dest src)) ++ ",null,\"generic\"]]]"
     ∧ jdump (rpcInner text dest src) =
      "[[" ++ jstr text ++ "," ++ jstr src ++ "," ++ jstr dest ++ ",true],[null]]")
    ∧ build_rpc_request "Hello" "fr" "auto" =
      "[[[\"MkEWBc\",\"[[\\\"Hello\\\",\\\"auto\\\",\\\"fr\\\",true],[null]]\",null,\"generic\"]]]" := by
  refine ⟨⟨?_, ?_⟩, ?_⟩
  · simp only [build_rpc_request, rpcInner, jdump, jdumpList, RPC_ID]
    simp only [String.append_assoc]
    rfl
  · simp only [rpcInner, jdump, jdumpList]
    simp only [String.append_assoc]
    rfl
  · rfl

/-! ## C7 -/

/-- C7: given that the primary decode succeeds (witnessed by the
benign-failure run), the auxiliary detect call is enrichment only: on
success its detected language overwrites `src` and nothing else changes,
a `RateLimitError` from it propagates, and any other failure is
swallowed keeping the original `src` — it never turns the successful
primary translation into a failure. -/
theorem aux_detect_enrichment_policy (data : JValue) (origin src dest : String)
    (r : Translated)
    (h : translateAssemble data origin src dest AuxOutcome.failed = Except.ok r) :
    r.src = JValue.str src
    ∧ (∀ d, translateAssemble data origin src dest (AuxOutcome.ok d)
        = Except.ok { r with src := d })
    ∧ translateAssemble data origin src dest AuxOutcome.rateLimited
        = Except.error TransError.rateLimit := by
  rcases h0 : pyGet data 0 with _ | row0 <;> simp [translateAssemble, h0] at h ⊢
  rcases h1 : pyIter row0 with _ | elems <;> simp [h1] at h ⊢
  rcases h2 : joinParts elems with _ | translated <;> simp [h2] at h ⊢
  rcases h3 : parse_extra_data data with _ | extra <;> simp [h3] at h ⊢
  subst h
  simp

/-- C7 witness: on the concrete payload, a swallowed auxiliary failure
keeps `src = "auto"`, a successful detect rewrites it to `"en"` leaving
all other fields identical, and a rate-limited detect propagates. -/
theorem aux_detect_enrichment_policy_witness :
    translateAssemble dataW "Hello" "auto" "fr" AuxOutcome.failed = Except.ok rFW
    ∧ rFW.src = JValue.str "auto"
    ∧ translateAssemble dataW "Hello" "auto" "fr" (AuxOutcome.ok (JValue.str "en"))
        = Except.ok rTrW
    ∧ translateAssemble dataW "Hello" "auto" "fr" AuxOutcome.rateLimited
        = Except.error TransError.rateLimit :=
  ⟨rfl,
   (aux_detect_enrichment_policy dataW "Hello" "auto" "fr" rFW rfl).1,
   (aux_detect_enrichment_policy dataW "Hello" "auto" "fr" rFW rfl).2.1 (JValue.str "en"),
   (aux_detect_enrichment_policy dataW "Hello" "auto" "fr" rFW rfl).2.2⟩

/-! ## C8 -/

/-- C8: in every successful `translate` assembly, the pronunciation is
`data[0][1][-2]`, defaulting to the origin text when that read raises,
falling back to `data[0][1][2]` when the value read is `None`; and
exactly for the destination codes `en`, `ca`, `fr`, a pronunciation
equal to the origin text is replaced by the translated text. -/
theorem pronunciation_fallback_and_excludes (data : JValue)
    (origin src dest : String) (aux : AuxOutcome) (r : Translated)
    (h : translateAssemble data origin src dest aux = Except.ok r) :
    r.pronunciation =
      (let p1 : JValue :=
         match pyGetPath data [(0 : Int), 1, -2] with
         | some v => v
         | none => JValue.str origin
       let p2 : JValue :=
         if JValue.beq p1 JValue.null then
           match pyGetPath data [(0 : Int), 1, 2] with
           | some v => v
           | none => p1
         else p1
       if (dest == "en" || dest == "ca" || dest == "fr")
           && JValue.beq p2 (JValue.str origin) then
         JValue.str r.text
       else p2) := by
  rcases h0 : pyGet data 0 with _ | row0 <;> simp [translateAssemble, h0] at h
  rcases h1 : pyIter row0 with _ | elems <;> simp [h1] at h
  rcases h2 : joinParts elems with _ | translated <;> simp [h2] at h
  rcases h3 : parse_extra_data data with _ | extra <;> simp [h3] at h
  rcases aux with d | _ | _
  · simp at h
    subst h
    simp [EXCLUDES, List.contains, or_assoc]
  · simp at h
  · simp at h
    subst h
    simp [EXCLUDES, List.contains, or_assoc]

/-- C8 witness: `dest = "fr"` with pronunciation equal to the origin
text `"Hello"` yields the translated text `"Bonjour"` as pronunciation. -/
theorem pronunciation_fallback_witness :
    translateAssemble dataW "Hello" "auto" "fr" (AuxOutcome.ok (JValue.str "en"))
      = Except.ok rTrW
    ∧ rTrW.pronunciation = JValue.str "Bonjour" :=
  ⟨rfl,
   (pronunciation_fallback_and_excludes dataW "Hello" "auto" "fr"
      (AuxOutcome.ok (JValue.str "en")) rTrW rfl).trans rfl⟩

/-! ## C9 -/

/-- C9: in every successful RPC decode the confidence field is `None`;
and when the caller requested `src='auto'`, the detected language is
`parsed[2]` when that read succeeds with a non-`'auto'` value, else
`parsed[0][2]` when available, and stays `"auto"` (without erroring)
when both reads fail. -/
theorem rpc_decoder_src_fallback (parsed : JValue) (origin src dest : String)
    (r : DetectTranslated)
    (h : decodeRpcParsed parsed origin src dest = Except.ok r) :
    r.confidence = none
    ∧ (src = "auto" →
        ((pyGet parsed 2 = none → pyGetPath parsed [0, 2] = none →
            r.src = JValue.str "auto")
         ∧ (∀ v, pyGet parsed 2 = some v → JValue.beq v (JValue.str "auto") = false →
             r.src = v)
         ∧ (∀ w, pyGet parsed 2 = none → pyGetPath parsed [0, 2] = some w →
             r.src = w))) := by
  rcases h0 : pyGetPath parsed [1, 0, 0, 3] with _ | sp <;> simp [decodeRpcParsed, h0] at h
  rcases h1 : pyGetPath parsed [1, 0, 0, 5] with _ | pr <;> simp [h1] at h
  rcases h2 : pyIter pr with _ | pv <;> simp [h2] at h
  rcases h3 : mapParts pv with _ | parts <;> simp [h3] at h
  rcases h4 : mapTexts parts with _ | pieces <;> simp [h4] at h
  subst h
  refine ⟨rfl, ?_⟩
  rintro rfl
  refine ⟨?_, ?_, ?_⟩
  · intro hg hp
    simp [hg, hp, JValue.beq]
  · intro v hg hb
    simp [hg, hb, JValue.beq]
  · intro w hg hp
    simp [hg, hp, JValue.beq]

/-- C9 witness: a payload where both `parsed[2]` and `parsed[0][2]` are
missing decodes successfully with `src` still `"auto"` and no
confidence. -/
theorem rpc_decoder_src_fallback_witness :
    decodeRpcParsed parsedW "hi" "auto" "en" = Except.ok rDetW
    ∧ rDetW.confidence = none
    ∧ rDetW.src = JValue.str "auto" :=
  ⟨rfl,
   (rpc_decoder_src_fallback parsedW "hi" "auto" "en" rDetW rfl).1,
   (((rpc_decoder_src_fallback parsedW "hi" "auto" "en" rDetW rfl).2 rfl).1 rfl rfl)⟩

/-! ## C10 -/

/-- C10: `close` never lets a teardown exception escape whatever the
handle states and close-failure behaviours; it nulls both fields; a
second close on the resulting state is a no-op that also produces no
error; and the destructor-time cleanup `__del__` never raises either. -/
theorem close_idempotent_never_raises (st : TranslatorState) :
    (closeTranslator st).2 = none
    ∧ (closeTranslator st).1 = { session := none, connector := none }
    ∧ closeTranslator ((closeTranslator st).1) = ((closeTranslator st).1, none)
    ∧ delTranslator st = none := by
  simp [closeTranslator, delTranslator, closeAttempt_ok, tryExceptPass_ok]

end GoogleTrans
